import Mathlib

/-!
Verification development for the Copperx Telegram payout bot
(`ldmdldm/copperx-telegram-bot`).

The definitions below are a shallow embedding, into Lean, of the
TypeScript source of the repository:

* `src/commands/transfer.ts` — the send / withdraw conversation flows
  (`startSendConversation`, `startBankWithdrawConversation`, the
  `AMOUNT_REGEX` validation);
* `src/commands/auth.ts` — the `/login` flow (`handleLogin`): email and
  OTP listeners and the two 5-minute `setTimeout` timers;
* `src/services/transfer.ts` — `sendFunds`, `withdrawToWallet`,
  `withdrawToBank`, `getTransactionHistory`;
* `src/services/wallet.ts` — `getWallets`, `getWalletBalances`,
  `setDefaultWallet`, `getDefaultWallet` (these throw on error);
* `src/services/auth.ts` — `authenticateWithOTP`: the OTP whitespace
  stripping, the token/expiry extraction from the authenticate response,
  and the 422 validation-error normalization.

JavaScript-specific behaviour (truthiness of strings and numbers, the
whitespace class of `\s`, `String.prototype.trim`, `replace(/\s+/g,
...)`, short-circuit `||`) is embedded by explicit helper functions, so
that every conditional of the source can be traced to a conditional
here.
-/

namespace CopperxBot

/-! ## JavaScript semantics helpers -/

/-- The character class of the JavaScript regular-expression escape `\s`
(ECMAScript WhiteSpace plus LineTerminator): TAB, LF, VT, FF, CR, SP,
NBSP, OGHAM SPACE MARK, U+2000..U+200A, LS, PS, NNBSP, MMSP, IDEOGRAPHIC
SPACE and ZWNBSP. -/
def isJsWs (c : Char) : Bool :=
  let n := c.toNat
  (9 ≤ n && n ≤ 13) || n == 32 || n == 160 || n == 0x1680 ||
  (0x2000 ≤ n && n ≤ 0x200a) || n == 0x2028 || n == 0x2029 ||
  n == 0x202f || n == 0x205f || n == 0x3000 || n == 0xfeff

/-- `String.prototype.trim`: drop `\s` characters from both ends
(on the underlying character list). -/
def trimList (l : List Char) : List Char :=
  ((l.dropWhile isJsWs).reverse.dropWhile isJsWs).reverse

/-- `s.trim()` for a JavaScript string. -/
def jsTrim (s : String) : String := String.mk (trimList s.data)

/-- `s.replace(/\s+/g, "")`: remove every `\s` character. -/
def stripWs (s : String) : String :=
  String.mk (s.data.filter (fun c => !isJsWs c))

/-- JavaScript truthiness of a possibly-undefined string: `undefined`
and the empty string are falsy. -/
def jsTruthyS : Option String → Bool
  | none => false
  | some s => s ≠ ""

/-- JavaScript truthiness of a possibly-undefined number: `undefined`
and `0` are falsy. -/
def jsTruthyI : Option Int → Bool
  | none => false
  | some n => n ≠ 0

/-- JavaScript `a || b` on possibly-undefined strings: keep `a` when it
is truthy, else `b`. -/
def jsOrS (a b : Option String) : Option String :=
  if jsTruthyS a then a else b

/-- JavaScript `a || b` where `b` is a string literal default
(as in `x?.message || "Unknown error"`). -/
def jsOrDefault (a : Option String) (b : String) : String :=
  match a with
  | some s => if s ≠ "" then s else b
  | none => b

/-- The regular-expression class `\d` = `[0-9]` (code points 48-57). -/
def isDigitChar (c : Char) : Bool := 48 ≤ c.toNat && c.toNat ≤ 57

/-- The class `[a-zA-Z]` (code points 65-90 and 97-122). -/
def isAlphaChar (c : Char) : Bool :=
  (65 ≤ c.toNat && c.toNat ≤ 90) || (97 ≤ c.toNat && c.toNat ≤ 122)

/-- `Array.prototype.join(sep)` on a list of strings: empty list gives
the empty string, single entry gives itself, and entries are otherwise
interleaved with `sep`. -/
def joinWith (sep : String) : List String → String
  | [] => ""
  | [x] => x
  | x :: y :: xs => x ++ sep ++ joinWith sep (y :: xs)

/-! ## The amount validation of the conversation flows

`src/commands/transfer.ts` line 43:

  `const AMOUNT_REGEX = /^\d+(\.\d{1,6})?$/;`

The matcher below is the direct functional reading of that anchored
regular expression: one or more digits, optionally followed by a dot and
one to six digits.  Because the character after the mandatory digit run
must be `.` or the end of the string, the greedy maximal digit prefix
(`takeWhile`/`dropWhile`) decides the match exactly as the backtracking
engine does. -/

def amountMatchesL (l : List Char) : Bool :=
  let ds := l.takeWhile isDigitChar
  let rest := l.dropWhile isDigitChar
  (!ds.isEmpty) &&
    (match rest with
     | [] => true
     | r :: fs =>
         r == '.' && (!fs.isEmpty) && decide (fs.length ≤ 6) && fs.all isDigitChar)

/-- `AMOUNT_REGEX.test s`. -/
def amountMatches (s : String) : Bool := amountMatchesL s.data

/-- Numeric value of a digit list (most significant first). -/
def digitsToNat (l : List Char) : Nat :=
  l.foldl (fun a c => 10 * a + (c.toNat - 48)) 0

/-- Exact value, in millionths (micro-units), of an amount string that
matches `AMOUNT_REGEX`.  Such a string denotes a decimal number with at
most six fractional digits, so its value is `amountMicro s / 10^6`
exactly.  The source stores `parseFloat(amountText)`; for this input
class the IEEE-754 double is nonzero exactly when the decimal value is
nonzero, so the source's sign test `amount <= 0` is `amountMicro s = 0`
here, and the draft's amount is modelled by its exact micro-unit
value. -/
def amountMicroL (l : List Char) : Nat :=
  let ds := l.takeWhile isDigitChar
  let rest := l.dropWhile isDigitChar
  digitsToNat ds * 1000000 +
    (match rest with
     | [] => 0
     | r :: fs => if r == '.' then digitsToNat fs * 10 ^ (6 - fs.length) else 0)

def amountMicro (s : String) : Nat := amountMicroL s.data

/-! ## Remote API Gateway: transfer service (`src/services/transfer.ts`)

An axios call either resolves with a response body or rejects with an
error that may carry `error.response.data.message` (the remote error
body's message) and `error.message` (the thrown Error's message).  The
outcome of the remote call is a parameter of each embedded operation. -/

/-- Outcome of one remote axios call. `fail respMessage errMessage`
carries `error.response?.data?.message` and `error.message`. -/
inductive ApiOutcome (α : Type) where
  | ok (resp : α)
  | fail (respMessage : Option String) (errMessage : Option String)
deriving DecidableEq

/-- The response body of a transfer POST, as far as the callers inspect
it: `id` (shown on success), `message` (read by the failure reply), and
`error` (set by the service's own catch branch). Absent fields are
`none`. -/
structure RespObj where
  id : Option String := none
  message : Option String := none
  error : Option String := none
deriving DecidableEq

/-- `TransferResult` of `src/types/index.ts`: `{success, data?}` as the
transfer conversation reads it (`result.success`, `result.data`). -/
structure TransferResult where
  success : Bool
  data : Option RespObj
deriving DecidableEq

/-- `sendFunds` (`src/services/transfer.ts` lines 14-52): on success
return `{success: true, data: response.data}`; on error return
`{success: false, data: {error: error.response?.data?.message ||
error.message || "Failed to send funds"}}`.  No exception escapes. -/
def sendFunds : ApiOutcome RespObj → TransferResult
  | .ok resp => { success := true, data := some resp }
  | .fail respMsg errMsg =>
      { success := false,
        data := some
          { error := some (jsOrDefault respMsg (jsOrDefault errMsg "Failed to send funds")) } }

/-- `withdrawToWallet` (lines 62-100): same shape, default message
`"Failed to withdraw funds"`. -/
def withdrawToWallet : ApiOutcome RespObj → TransferResult
  | .ok resp => { success := true, data := some resp }
  | .fail respMsg errMsg =>
      { success := false,
        data := some
          { error := some (jsOrDefault respMsg (jsOrDefault errMsg "Failed to withdraw funds")) } }

/-- The request body `withdrawToBank` posts to `/transfers/offramp`
(lines 115-127): `{amount: amount.toString(), bankId}`.  The amount is
carried as its exact micro-unit value; its decimal rendering by
`Number.prototype.toString` is not modelled. -/
structure OfframpRequest where
  amountMicroUnits : Nat
  bankId : String
deriving DecidableEq

/-- `withdrawToBank` (lines 109-145): result shape as `sendFunds`,
default message `"Failed to withdraw funds to bank"`. -/
def withdrawToBank : ApiOutcome RespObj → TransferResult
  | .ok resp => { success := true, data := some resp }
  | .fail respMsg errMsg =>
      { success := false,
        data := some
          { error := some (jsOrDefault respMsg (jsOrDefault errMsg "Failed to withdraw funds to bank")) } }

/-- `getTransactionHistory` (lines 154-183): on success
`{success: true, data}`; on error `{success: false, error: message}` —
the error string sits at the top level here, not under `data`. -/
structure HistoryResult where
  success : Bool
  dataPresent : Bool
  error : Option String
deriving DecidableEq

def getTransactionHistory : ApiOutcome Unit → HistoryResult
  | .ok _ => { success := true, dataPresent := true, error := none }
  | .fail respMsg errMsg =>
      { success := false, dataPresent := false,
        error := some (jsOrDefault respMsg
          (jsOrDefault errMsg "Failed to fetch transaction history")) }

/-! ## Remote API Gateway: wallet service (`src/services/wallet.ts`)

Unlike the transfer service, every wallet operation THROWS on error:
`throw new Error(error.response.data.message)` when the axios error body
carries a truthy message, `throw new Error(error.message)` when a plain
`Error` was thrown, and a fixed default otherwise.  A thrown exception
is `Except.error`. -/

/-- `Wallet` interface of `src/services/wallet.ts`. -/
structure Wallet where
  id : String
  name : String
  address : String
  network : String
  isDefault : Bool
  createdAt : String
  updatedAt : String
deriving DecidableEq

/-- The user session as the wallet service reads it. -/
structure SessionRec where
  token : String
deriving DecidableEq

/-- The catch branch shared by all four wallet-service operations:
`if (isAxiosError(error) && error.response?.data?.message) throw
Error(that message); else if (error instanceof Error) throw
Error(error.message); else throw Error(default)`. -/
def walletThrowMsg (defaultMsg : String) (respMsg errMsg : Option String) : String :=
  if jsTruthyS respMsg then respMsg.getD ""
  else
    match errMsg with
    | some m => m
    | none => defaultMsg

/-- `getWallets` (`src/services/wallet.ts` lines 31-56): throws
`"User not authenticated"` without a session, returns the wallet list on
success, and otherwise propagates a thrown `Error`. -/
def getWallets (session : Option SessionRec) (outcome : ApiOutcome (List Wallet)) :
    Except String (List Wallet) :=
  match session with
  | none => .error "User not authenticated"
  | some _ =>
      match outcome with
      | .ok ws => .ok ws
      | .fail respMsg errMsg =>
          .error (walletThrowMsg "Failed to fetch wallets" respMsg errMsg)

/-- `getWalletBalances` (lines 63-87): identical structure, default
`"Failed to fetch wallet balances"`.  The balance payload itself is not
inspected by any claim, so it is carried opaquely. -/
def getWalletBalances (session : Option SessionRec) (outcome : ApiOutcome Unit) :
    Except String Unit :=
  match session with
  | none => .error "User not authenticated"
  | some _ =>
      match outcome with
      | .ok u => .ok u
      | .fail respMsg errMsg =>
          .error (walletThrowMsg "Failed to fetch wallet balances" respMsg errMsg)

/-- `setDefaultWallet` (lines 94-124): default
`"Failed to set default wallet"`. -/
def setDefaultWallet (session : Option SessionRec) (outcome : ApiOutcome Wallet) :
    Except String Wallet :=
  match session with
  | none => .error "User not authenticated"
  | some _ =>
      match outcome with
      | .ok w => .ok w
      | .fail respMsg errMsg =>
          .error (walletThrowMsg "Failed to set default wallet" respMsg errMsg)

/-- `getDefaultWallet` (lines 131-156): default
`"Failed to fetch default wallet"`.  `response.data` may be empty, hence
the `Option Wallet` payload (the caller checks `if (!defaultWallet)`). -/
def getDefaultWallet (session : Option SessionRec) (outcome : ApiOutcome (Option Wallet)) :
    Except String (Option Wallet) :=
  match session with
  | none => .error "User not authenticated"
  | some _ =>
      match outcome with
      | .ok w => .ok w
      | .fail respMsg errMsg =>
          .error (walletThrowMsg "Failed to fetch default wallet" respMsg errMsg)

/-! ## The send conversation (`startSendConversation`,
`src/commands/transfer.ts` lines 179-343)

`userStates` is a `Record<number, any>` local to one
`startSendConversation` call and every access uses the closure's
`chatId`, so it is modelled as one optional draft slot.  Each listener
first returns on messages of other chats (`msg.chat.id !== chatId`);
that guard is the `chat ≠ chatId` check of the step functions.  Chat
replies are collected in order; `bot.answerCallbackQuery` (a button
acknowledgement, not a chat message) is not tracked. -/

/-- The accumulated send draft: `userStates[chatId]` after the
description step.  `amountMicroUnits` is the exact value of the
validated amount string in millionths (see `amountMicro`). -/
structure SendDraft where
  recipient : String
  amountMicroUnits : Nat
  description : Option String
deriving DecidableEq

/-- Chat replies of the amount listener (lines 206-227). -/
def invalidAmountMsg : String := "⚠️ Please enter a valid amount (e.g., 10 or 10.5)"

def gtZeroMsg : String := "⚠️ Amount must be greater than 0."

def descPromptMsg : String :=
  "Please enter a description for this transfer (optional, type \x27skip\x27 to leave blank):"

/-- Effect of one delivery to the send flow's amount listener. -/
structure AmountStepEffect where
  advanced : Bool
  storedAmountMicro : Option Nat
  reply : String
  listenerRemoved : Bool
deriving DecidableEq

/-- The amount listener of the send flow (lines 206-227), for a message
of the right chat: trim the text; if it is absent, empty or fails
`AMOUNT_REGEX`, re-prompt (listener stays registered, draft untouched);
if the parsed value is not strictly positive, re-prompt; otherwise store
the amount, deregister the listener, and prompt for the description. -/
def sendAmountStep (text : Option String) : AmountStepEffect :=
  match text with
  | none =>
      { advanced := false, storedAmountMicro := none,
        reply := invalidAmountMsg, listenerRemoved := false }
  | some s =>
      let amountText := jsTrim s
      if amountText = "" ∨ amountMatches amountText = false then
        { advanced := false, storedAmountMicro := none,
          reply := invalidAmountMsg, listenerRemoved := false }
      else if amountMicro amountText = 0 then
        { advanced := false, storedAmountMicro := none,
          reply := gtZeroMsg, listenerRemoved := false }
      else
        { advanced := true, storedAmountMicro := some (amountMicro amountText),
          reply := descPromptMsg, listenerRemoved := true }

/-- Chat replies of the `confirm_send` callback handler
(lines 265-339). -/
def noPendingSendMsg : String := "❌ Transfer data not found. Please start again with /send"

def sendAuthErrorMsg : String := "⚠️ Authentication error. Please login again with /login"

def walletErrHead : String := "❌ Couldn\x27t retrieve your default wallet: "

def processingTransferMsg : String := "🔄 Processing your transfer..."

def transferFailedHead : String := "❌ Transfer failed: "

/-- Marker for the success reply (lines 311-317); its interpolated
amount/recipient/id details are not inspected by any claim. -/
def transferSuccessMsg : String := "✅ *Transfer Successful!*"

/-- What one `confirm_send` button press does: the replies sent, whether
`sendFunds` was invoked and with which arguments, and the draft slot
afterwards. -/
structure ConfirmSendEffect where
  replies : List String
  invoked : Bool
  callRecipient : Option String
  callAmountMicro : Option Nat
  callDescription : Option String
  draftAfter : Option SendDraft
deriving DecidableEq

/-- The `confirm_send` branch of the callback handler (lines 270-326):
read `userStates[chatId]` (report "Transfer data not found" when
absent), check the token, resolve the default wallet (either failure
aborts with the surfaced message), then run `sendFunds(token,
userData.recipient, userData.amount.toString(), userData.description ||
"")`; on `result.success && result.data` report success and delete the
draft, otherwise report `result.data?.message || "Unknown error"` and
leave the draft in place. -/
def confirmSend (draft : Option SendDraft) (token : Option String)
    (wallet : Except String (Option Wallet)) (outcome : ApiOutcome RespObj) :
    ConfirmSendEffect :=
  match draft with
  | none =>
      { replies := [noPendingSendMsg], invoked := false,
        callRecipient := none, callAmountMicro := none, callDescription := none,
        draftAfter := none }
  | some ud =>
      if jsTruthyS token = false then
        { replies := [sendAuthErrorMsg], invoked := false,
          callRecipient := none, callAmountMicro := none, callDescription := none,
          draftAfter := some ud }
      else
        match wallet with
        | .error m =>
            { replies := [walletErrHead ++ m], invoked := false,
              callRecipient := none, callAmountMicro := none, callDescription := none,
              draftAfter := some ud }
        | .ok none =>
            { replies := [walletErrHead ++ "Unknown error"], invoked := false,
              callRecipient := none, callAmountMicro := none, callDescription := none,
              draftAfter := some ud }
        | .ok (some _) =>
            let result := sendFunds outcome
            if result.success ∧ result.data.isSome then
              { replies := [processingTransferMsg, transferSuccessMsg],
                invoked := true,
                callRecipient := some ud.recipient,
                callAmountMicro := some ud.amountMicroUnits,
                callDescription := some (jsOrDefault ud.description ""),
                draftAfter := none }
            else
              { replies := [processingTransferMsg,
                  transferFailedHead ++
                    jsOrDefault (result.data.bind RespObj.message) "Unknown error"],
                invoked := true,
                callRecipient := some ud.recipient,
                callAmountMicro := some ud.amountMicroUnits,
                callDescription := some (jsOrDefault ud.description ""),
                draftAfter := some ud }

/-- The `cancel_send` branch (lines 327-331): report cancellation and
delete the draft unconditionally. -/
def cancelSend (_draft : Option SendDraft) : ConfirmSendEffect :=
  { replies := ["❌ Transfer has been canceled."], invoked := false,
    callRecipient := none, callAmountMicro := none, callDescription := none,
    draftAfter := none }

/-! ## The bank withdrawal conversation
(`startBankWithdrawConversation`, lines 500-606) -/

def bankNoPendingMsg : String := "❌ Withdrawal data not found. Please start again with /withdraw"

def bankProcessingMsg : String := "🔄 Processing your bank withdrawal..."

def bankFailedHead : String := "❌ Bank withdrawal failed: "

/-- Marker for the success reply (lines 579-585). -/
def bankSuccessMsg : String := "✅ *Bank Withdrawal Initiated!*"

/-- The bank flow's draft holds only the amount (line 525). -/
structure BankDraft where
  amountMicroUnits : Nat
deriving DecidableEq

/-- Effect of one `confirm_bank_withdraw` button press. -/
structure BankConfirmEffect where
  replies : List String
  invoked : Bool
  request : Option OfframpRequest
  draftAfter : Option BankDraft
deriving DecidableEq

/-- The `confirm_bank_withdraw` branch (lines 553-594): read the draft,
check the token, then call `withdrawToBank(token,
userData.amount.toString(), "")` — the bank account identifier argument
is the empty-string literal at the call site (line 576) — and build the
`/transfers/offramp` body `{amount, bankId}` from those arguments.  On
success the draft is deleted; on failure it is kept. -/
def confirmBankWithdraw (draft : Option BankDraft) (token : Option String)
    (outcome : ApiOutcome RespObj) : BankConfirmEffect :=
  match draft with
  | none =>
      { replies := [bankNoPendingMsg], invoked := false,
        request := none, draftAfter := none }
  | some ud =>
      if jsTruthyS token = false then
        { replies := [sendAuthErrorMsg], invoked := false,
          request := none, draftAfter := some ud }
      else
        let result := withdrawToBank outcome
        if result.success ∧ result.data.isSome then
          { replies := [bankProcessingMsg, bankSuccessMsg], invoked := true,
            request := some { amountMicroUnits := ud.amountMicroUnits, bankId := "" },
            draftAfter := none }
        else
          { replies := [bankProcessingMsg,
              bankFailedHead ++
                jsOrDefault (result.data.bind RespObj.message) "Unknown error"],
            invoked := true,
            request := some { amountMicroUnits := ud.amountMicroUnits, bankId := "" },
            draftAfter := some ud }

/-! ## The login flow (`handleLogin`, `src/commands/auth.ts` lines 22-202)

`src/commands/auth.ts` lines 15 and 17:

  `const EMAIL_REGEX = /^[a-zA-Z0-9._%+-]+@[a-zA-Z0-9.-]+\.[a-zA-Z]{2,}$/;`
  `const OTP_REGEX = /^\s*\d{1,6}(?:\s+\d{1,6})*\s*$/;`
-/

/-- The class `[a-zA-Z0-9._%+-]` (local part of `EMAIL_REGEX`). -/
def isLocalChar (c : Char) : Bool :=
  isAlphaChar c || isDigitChar c || c == '.' || c == '_' || c == '%' || c == '+' || c == '-'

/-- The class `[a-zA-Z0-9.-]` (domain part of `EMAIL_REGEX`). -/
def isDomainChar (c : Char) : Bool :=
  isAlphaChar c || isDigitChar c || c == '.' || c == '-'

/-- `EMAIL_REGEX.test`: the anchored pattern matches exactly when the
string decomposes as `A ++ "@" ++ C ++ "." ++ D` with `A` a nonempty run
of local characters, `C` a nonempty run of domain characters and `D` at
least two ASCII letters.  A backtracking match is precisely such a
decomposition, so the matcher searches all candidate positions of the
`@` and of the final dot. -/
def emailMatchesL (l : List Char) : Bool :=
  (List.range l.length).any fun i =>
    (l.get? i == some '@') &&
    (let a := l.take i
     let b := l.drop (i + 1)
     (!a.isEmpty) && a.all isLocalChar &&
       ((List.range b.length).any fun j =>
         (b.get? j == some '.') &&
         (let c := b.take j
          let d := b.drop (j + 1)
          (!c.isEmpty) && c.all isDomainChar && decide (2 ≤ d.length) && d.all isAlphaChar)))

def emailMatches (s : String) : Bool := emailMatchesL s.data

/-- `OTP_REGEX.test`: the pattern `^\s*\d{1,6}(?:\s+\d{1,6})*\s*$`
accepts exactly the strings whose maximal runs of non-whitespace
characters are nonempty, number at least one, and are each a run of at
most six digits: consecutive digit groups must be separated by
whitespace, so each maximal run is one group. `List.splitOnP` on the
whitespace class yields those runs (with empties for adjacent
separators, which are filtered out). -/
def otpMatches (s : String) : Bool :=
  let toks := (s.data.splitOnP isJsWs).filter (fun t => !t.isEmpty)
  (!toks.isEmpty) && toks.all (fun t => decide (t.length ≤ 6) && t.all isDigitChar)

/-- Chat messages of the login flow (`src/commands/auth.ts`). -/
def emailPromptMsg : String := "📧 Please enter your Copperx account email:"

def invalidEmailMsg : String := "❌ Invalid email format. Please try /login again."

def otpSentMsg (email : String) : String :=
  "✅ OTP sent to " ++ email ++ ". Please enter the 6-digit OTP code:"

def otpRequestFailMsg (m : String) : String :=
  "❌ Failed to send OTP: " ++ m ++ ". Please try /login again."

def invalidOtpMsg : String := "❌ Invalid OTP format. Please try /login again."

def authenticatingMsg : String := "🔄 Authenticating..."

def welcomeMsg (firstName : String) : String :=
  "🎉 Welcome, " ++ firstName ++ "! You are now logged in.\n\n" ++
  "You can use the following commands:\n" ++
  "/profile - View your account details\n" ++
  "/wallets - View your wallets\n" ++
  "/balance - Check your balance\n" ++
  "/send - Send funds\n" ++
  "/withdraw - Withdraw funds\n" ++
  "/history - View transaction history"

/-- Stands for the user-facing reply assembled by the catch block of
the OTP step (auth.ts lines 104-174).  No claim inspects that
classifier, so its output is represented by this single marker. -/
def authFailureReplyMarker : String := "❌ Authentication failed (classified reply)"

def emailTimeoutMsg : String := "⏰ Email input timeout. Please try /login again."

def otpTimeoutMsg : String := "⏰ OTP verification timeout. Please try /login again."

/-- The two 5-minute timers of `handleLogin`: lines 191-194 (email) and
lines 178-181 (OTP). -/
inductive TimerKind where
  | emailTimeout
  | otpTimeout
deriving DecidableEq

def timerMsg : TimerKind → String
  | .emailTimeout => emailTimeoutMsg
  | .otpTimeout => otpTimeoutMsg

inductive LoginPhase where
  | awaitingEmail
  | awaitingOtp
  | loggedIn
  | failed
deriving DecidableEq

/-- State of one `/login` flow for one chat: the current phase, the
email captured by the closure, whether a `bot.onText(/.*/, ...)` text
listener is currently registered (at most one exists at a time: each
listener removes itself before anything else), the pending `setTimeout`
entries as (absolute fire time in ms, callback), the chat replies sent
so far, and the calls made to `requestEmailOTP` and to the
authenticate endpoint (email, otp payload). -/
structure LoginSim where
  phase : LoginPhase
  email : Option String
  textListener : Bool
  timers : List (Nat × TimerKind)
  outbox : List String
  otpRequests : List String
  authCalls : List (String × String)
deriving DecidableEq

/-- Environment of one login run: whether `requestEmailOTP` throws (and
with which `Error` message), whether the authenticate-and-set-up-session
block (authenticate, store session, fetch profile, start Pusher)
succeeds, and the profile first name used in the welcome reply. -/
structure AuthEnv where
  otpRequestError : Option String
  authOk : Bool
  firstName : String
deriving DecidableEq

/-- Executing one expired `setTimeout` callback (auth.ts lines 178-181
and 191-194): `bot.removeTextListener(/.*/)` followed by the timeout
message.  The source keeps no handle to either timer and contains no
`clearTimeout`, and the callbacks test nothing, so this runs whenever
the 5 minutes elapse, whatever the flow did meanwhile. -/
def fireTimer (k : TimerKind) (st : LoginSim) : LoginSim :=
  { st with textListener := false, outbox := st.outbox ++ [timerMsg k] }

/-- Fire every pending timer due at time `t` (in scheduling order). -/
def fireDue (t : Nat) (st : LoginSim) : LoginSim :=
  let due := st.timers.filter (fun p => decide (p.1 ≤ t))
  let pending := st.timers.filter (fun p => !decide (p.1 ≤ t))
  due.foldl (fun s p => fireTimer p.2 s) { st with timers := pending }

/-- Delivery of one text message to the flow's current `/.*/` listener.
Each listener first ignores other chats (`if (msg.chat.id !== chatId)
return`), then removes itself, then validates:

* awaiting email (lines 36-51): on `EMAIL_REGEX` failure reply and stop
  (the user must reissue `/login`); on success call `requestEmailOTP`,
  and if it resolves, prompt for the OTP, register the OTP listener and
  schedule the 5-minute OTP timer (lines 177-181);
* awaiting OTP (lines 54-66): on `OTP_REGEX` failure reply and stop;
  on success send the authenticating notice and call
  `authenticateWithOTP(email, otp)`, whose posted `otp` payload is
  `otp.replace(/\s+/g, "")` (`src/services/auth.ts` line 232). -/
def stepText (env : AuthEnv) (chatId : Int) (now : Nat) (chat : Int)
    (content : Option String) (st : LoginSim) : LoginSim :=
  if st.textListener = false then st
  else if chat ≠ chatId then st
  else
    match st.phase with
    | .awaitingEmail =>
        let email := jsTrim (content.getD "")
        let st1 := { st with textListener := false }
        if emailMatches email = false then
          { st1 with phase := .failed, outbox := st1.outbox ++ [invalidEmailMsg] }
        else
          let st2 := { st1 with email := some email,
                                otpRequests := st1.otpRequests ++ [email] }
          match env.otpRequestError with
          | some m =>
              { st2 with phase := .failed, outbox := st2.outbox ++ [otpRequestFailMsg m] }
          | none =>
              { st2 with phase := .awaitingOtp,
                         outbox := st2.outbox ++ [otpSentMsg email],
                         textListener := true,
                         timers := st2.timers ++ [(now + 300000, TimerKind.otpTimeout)] }
    | .awaitingOtp =>
        let otp := jsTrim (content.getD "")
        let st1 := { st with textListener := false }
        if otpMatches otp = false then
          { st1 with phase := .failed, outbox := st1.outbox ++ [invalidOtpMsg] }
        else
          let st2 := { st1 with outbox := st1.outbox ++ [authenticatingMsg],
                                authCalls := st1.authCalls ++
                                  [(st1.email.getD "", stripWs otp)] }
          if env.authOk then
            { st2 with phase := .loggedIn,
                       outbox := st2.outbox ++ [welcomeMsg env.firstName] }
          else
            { st2 with phase := .failed,
                       outbox := st2.outbox ++ [authFailureReplyMarker] }
    | _ => st

/-- The state right after `/login` is issued at time `t` by an
unauthenticated user (lines 33-36 and 190-194): the email prompt is
sent, the email listener is registered, and the 5-minute email timer is
scheduled.  No handle to the timer is kept. -/
def loginStart (t : Nat) : LoginSim :=
  { phase := .awaitingEmail, email := none, textListener := true,
    timers := [(t + 300000, TimerKind.emailTimeout)],
    outbox := [emailPromptMsg], otpRequests := [], authCalls := [] }

/-- Run a list of timed incoming messages `(time, chat, text)` through
the single-threaded event loop: before each message, every timer due by
then fires. -/
def runEvents (env : AuthEnv) (chatId : Int) :
    List (Nat × Int × Option String) → LoginSim → LoginSim
  | [], st => st
  | (t, chat, content) :: rest, st =>
      runEvents env chatId rest (stepText env chatId t chat content (fireDue t st))

/-! ## `authenticateWithOTP` (`src/services/auth.ts` lines 217-431) -/

/-- The `otp` field of the body posted to `/auth/email-otp/authenticate`
(line 232): `otp.replace(/\s+/g, "")`. -/
def authenticateOtpPayload (otp : String) : String := stripWs otp

/-- The `user` object optionally nested in the authenticate response. -/
structure AuthUserObj where
  organizationId : Option String := none
deriving DecidableEq

/-- The authenticate response body, with every field the extraction code
(lines 243-296) reads; an absent field is `none`.  `expireAt` is carried
as its epoch-milliseconds value (`new Date(x).getTime()`). -/
structure AuthRespData where
  token : Option String := none
  accessToken : Option String := none
  refreshToken : Option String := none
  refresh_token : Option String := none
  expiresIn : Option Int := none
  expireAt : Option Int := none
  organizationId : Option String := none
  user : Option AuthUserObj := none
deriving DecidableEq

/-- The `AuthToken` record the service builds (lines 288-293);
`refreshToken` is included only when truthy (the object spread). -/
structure AuthTokenRec where
  token : String
  expiresIn : Option Int
  organizationId : String
  refreshToken : Option String
deriving DecidableEq

/-- The success-path extraction of `authenticateWithOTP`
(lines 243-296): reject when neither `token` nor `accessToken` is
truthy; `token = data.token || data.accessToken`; `refreshToken =
data.refreshToken || data.refresh_token || ""`; `expiresIn =
data.expiresIn`, and when that is falsy and `expireAt` is truthy,
`Math.floor((expireAt - now) / 1000)`; `organizationId =
data.organizationId || ""`, falling back to `data.user.organizationId`
when truthy.  `nowMs` is the clock read at line 256. -/
def extractAuthToken (nowMs : Int) (data : Option AuthRespData) :
    Except String AuthTokenRec :=
  match data with
  | none => .error "Invalid response from server"
  | some d =>
      if jsTruthyS d.token = false ∧ jsTruthyS d.accessToken = false then
        .error "Invalid response from server"
      else
        let token := jsOrS d.token d.accessToken
        let refreshTok := jsOrDefault (jsOrS d.refreshToken d.refresh_token) ""
        let expiresIn :=
          if jsTruthyI d.expiresIn then d.expiresIn
          else
            match d.expireAt with
            | some e => if e ≠ 0 then some (Int.fdiv (e - nowMs) 1000) else d.expiresIn
            | none => d.expiresIn
        let org0 := jsOrDefault d.organizationId ""
        let org :=
          if org0 = "" then
            match d.user with
            | some u => if jsTruthyS u.organizationId then u.organizationId.getD "" else org0
            | none => org0
          else org0
        if jsTruthyS token = false then .error "Missing authentication token in response"
        else
          .ok { token := token.getD "", expiresIn := expiresIn,
                organizationId := org,
                refreshToken := if refreshTok ≠ "" then some refreshTok else none }

/-! ### The 422 branch of the catch handler (lines 312-392)

`error.response.data.message` may be a string, an array (of strings or
of class-validator objects `{property, constraints, children}`), or
another object; `error.response.data.errors` may add per-field details.
The thrown `Error`'s message string is computed below. -/

/-- A nested child validation object (only `property` and `constraints`
of a child are read, lines 334-340). -/
structure ChildErr where
  property : Option String := none
  constraints : Option (List (String × String)) := none
deriving DecidableEq

/-- A class-validator error object in the `message` array.  A
`constraints` object is its key-value pairs in insertion order
(`Object.values` reads the values in that order). -/
structure ValErr where
  property : Option String := none
  constraints : Option (List (String × String)) := none
  children : Option (List ChildErr) := none
deriving DecidableEq

/-- One entry of the `message` array: a primitive (string) or an
object. -/
inductive MsgItem where
  | prim (s : String)
  | obj (o : ValErr)
deriving DecidableEq

/-- The shape of `error.response.data.message`. For a non-array object
the code emits `JSON.stringify(message)`; that rendering is carried
opaquely, since no claim reaches it. -/
inductive MsgField where
  | absent
  | str (s : String)
  | arr (items : List MsgItem)
  | objOther (stringified : String)
deriving DecidableEq

/-- A value of the `errors` record: a string or an array of strings
(line 378 joins arrays with ", "). -/
inductive ErrVal where
  | one (s : String)
  | many (xs : List String)
deriving DecidableEq

/-- `error.response.data` as the 422 branch reads it. -/
structure Err422Body where
  message : MsgField := .absent
  errors : Option (List (String × ErrVal)) := none
deriving DecidableEq

def joinComma (xs : List String) : String := joinWith ", " xs

/-- `JSON.stringify` of a primitive string (escaping of embedded quotes
is not modelled; no claim exercises it). -/
def jsonStringifyPrim (s : String) : String := "\"" ++ s ++ "\""

def jsonStringifyConstraints (cs : List (String × String)) : String :=
  "\x7b" ++ joinWith ","
    (cs.map (fun p => jsonStringifyPrim p.1 ++ ":" ++ jsonStringifyPrim p.2)) ++ "\x7d"

def jsonStringifyChild (c : ChildErr) : String :=
  "\x7b" ++ joinWith ","
    ((match c.property with
      | some p => ["\"property\":" ++ jsonStringifyPrim p]
      | none => []) ++
     (match c.constraints with
      | some cs => ["\"constraints\":" ++ jsonStringifyConstraints cs]
      | none => [])) ++ "\x7d"

/-- `JSON.stringify(errorObj)` fallback of line 345 (field order as the
record declares them; undefined fields omitted). -/
def jsonStringifyObj (o : ValErr) : String :=
  "\x7b" ++ joinWith ","
    ((match o.property with
      | some p => ["\"property\":" ++ jsonStringifyPrim p]
      | none => []) ++
     (match o.constraints with
      | some cs => ["\"constraints\":" ++ jsonStringifyConstraints cs]
      | none => []) ++
     (match o.children with
      | some ch =>
          ["\"children\":[" ++ joinWith "," (ch.map jsonStringifyChild) ++ "]"]
      | none => [])) ++ "\x7d"

/-- Lines 334-340: a child contributes
`parent.child: <joined constraint values>` when it has a truthy
`property` and a `constraints` object, and `null` (filtered out)
otherwise. -/
def childFragment (parentProp : String) (c : ChildErr) : Option String :=
  if jsTruthyS c.property ∧ c.constraints.isSome then
    some (parentProp ++ "." ++ c.property.getD "" ++ ": " ++
      joinComma ((c.constraints.getD []).map Prod.snd))
  else none

/-- Lines 326-345: the fragment one `message`-array entry maps to. -/
def itemFragment : MsgItem → String
  | .obj o =>
      if jsTruthyS o.property ∧ o.constraints.isSome then
        o.property.getD "" ++ ": " ++ joinComma ((o.constraints.getD []).map Prod.snd)
      else if jsTruthyS o.property ∧ o.children.isSome then
        let nested := joinWith "; "
          ((o.children.getD []).filterMap (childFragment (o.property.getD "")))
        if nested ≠ "" then nested else "Invalid " ++ o.property.getD ""
      else jsonStringifyObj o
  | .prim s => jsonStringifyPrim s

/-- `Array.prototype.join` stringification of an entry (used on line
361 for arrays whose first element is not an object). -/
def itemJoinStr : MsgItem → String
  | .prim s => s
  | .obj _ => "[object Object]"

/-- The message string of the `Error` thrown by the 422 branch
(lines 312-391): start from "Validation failed"; a string `message`
replaces it; an array whose first entry is an object is flattened
per-entry, the truthy fragments joined with "; " (falling back to
"Validation failed" when that join is empty); any other array is joined
with ", "; a non-array object is stringified; finally a nonempty
`errors` record appends `: field: details; ...`. -/
def normalize422 (body : Option Err422Body) : String :=
  match body with
  | none => "Validation failed"
  | some b =>
      let base :=
        match b.message with
        | .absent => "Validation failed"
        | .str s => s
        | .arr items =>
            (match items with
             | .obj _ :: _ =>
                 let joined := joinWith "; "
                   ((items.map itemFragment).filter (fun s => s ≠ ""))
                 if joined ≠ "" then joined else "Validation failed"
             | _ => joinComma (items.map itemJoinStr))
        | .objOther s => s
      let appendix :=
        match b.errors with
        | none => ""
        | some entries =>
            joinWith "; " (entries.map (fun e =>
              e.1 ++ ": " ++ (match e.2 with
                              | .one s => s
                              | .many xs => joinComma xs)))
      if appendix ≠ "" then base ++ ": " ++ appendix else base

/-! ## Supporting lemmas -/

theorem filter_keep_dropWhile (p : Char → Bool) (l : List Char) :
    (l.dropWhile p).filter (fun c => !p c) = l.filter (fun c => !p c) := by
  induction l with
  | nil => rfl
  | cons c t ih =>
      by_cases h : p c = true
      · simp [List.dropWhile, List.filter, h, ih]
      · simp only [Bool.not_eq_true] at h
        simp [List.dropWhile, List.filter, h]

theorem dropWhile_eq_self_of_forall (p : Char → Bool) (l : List Char)
    (h : ∀ a ∈ l, p a = false) : l.dropWhile p = l := by
  cases l with
  | nil => rfl
  | cons c t => simp [List.dropWhile, h c (by simp)]

/-- Removing all whitespace is unaffected by first trimming the ends:
`s.trim().replace(/\s+/g, "") = s.replace(/\s+/g, "")`. -/
theorem stripWs_jsTrim (s : String) : stripWs (jsTrim s) = stripWs s := by
  cases s with
  | mk l =>
      show String.mk ((trimList l).filter _) = String.mk (l.filter _)
      unfold trimList
      rw [List.filter_reverse, filter_keep_dropWhile, List.filter_reverse,
        List.reverse_reverse, filter_keep_dropWhile]

theorem not_isJsWs_of_digit_or_dot (c : Char)
    (h : isDigitChar c = true ∨ c = '.') : isJsWs c = false := by
  have hn : 46 ≤ c.toNat ∧ c.toNat ≤ 57 := by
    rcases h with h | h
    · simp only [isDigitChar, Bool.and_eq_true, decide_eq_true_eq] at h
      omega
    · subst h; simp
  rw [Bool.eq_false_iff]
  intro htrue
  simp only [isJsWs, Bool.or_eq_true, Bool.and_eq_true, decide_eq_true_eq,
    beq_iff_eq] at htrue
  omega

theorem amountMatches_chars (l : List Char) (h : amountMatchesL l = true) :
    ∀ c ∈ l, isDigitChar c = true ∨ c = '.' := by
  intro c hc
  rw [← List.takeWhile_append_dropWhile (p := isDigitChar) (l := l)] at hc
  rcases List.mem_append.mp hc with hc | hc
  · exact Or.inl (List.mem_takeWhile_imp hc)
  · unfold amountMatchesL at h
    cases hrest : l.dropWhile isDigitChar with
    | nil =>
        rw [hrest] at hc
        cases hc
    | cons r fs =>
        rw [hrest] at hc h
        simp only [Bool.and_eq_true, beq_iff_eq, decide_eq_true_eq,
          List.all_eq_true] at h
        obtain ⟨-, ⟨⟨hdot, -⟩, -⟩, hfs⟩ := h
        rcases List.mem_cons.mp hc with hc | hc
        · exact Or.inr (hc.trans hdot)
        · exact Or.inl (hfs c hc)

theorem jsTrim_eq_self_of_amountMatches (s : String) (h : amountMatches s = true) :
    jsTrim s = s := by
  cases s with
  | mk l =>
      have hchars : ∀ c ∈ l, isJsWs c = false := fun c hc =>
        not_isJsWs_of_digit_or_dot c (amountMatches_chars l h c hc)
      show String.mk (trimList l) = String.mk l
      unfold trimList
      rw [dropWhile_eq_self_of_forall isJsWs l hchars,
        dropWhile_eq_self_of_forall isJsWs l.reverse
          (fun c hc => hchars c (List.mem_reverse.mp hc)),
        List.reverse_reverse]

theorem amountMatches_ne_empty (s : String) (h : amountMatches s = true) :
    s ≠ "" := by
  intro he
  subst he
  exact absurd h (by decide)

/-! Lemmas on the login-flow event loop. -/

theorem fireTimer_otpRequests (k : TimerKind) (st : LoginSim) :
    (fireTimer k st).otpRequests = st.otpRequests := rfl

theorem foldl_fireTimer_fields (due : List (Nat × TimerKind)) (st : LoginSim) :
    (due.foldl (fun s p => fireTimer p.2 s) st).otpRequests = st.otpRequests ∧
    (due.foldl (fun s p => fireTimer p.2 s) st).textListener =
      (if due.isEmpty then st.textListener else false) := by
  induction due generalizing st with
  | nil => simp
  | cons p rest ih =>
      rcases ih (fireTimer p.2 st) with ⟨h1, h2⟩
      refine ⟨by simpa using h1, ?_⟩
      simp only [List.foldl_cons, h2]
      cases rest <;> simp [fireTimer]

theorem fireDue_otpRequests (t : Nat) (st : LoginSim) :
    (fireDue t st).otpRequests = st.otpRequests := by
  unfold fireDue
  exact (foldl_fireTimer_fields _ _).1

theorem fireDue_textListener_false (t : Nat) (st : LoginSim)
    (h : st.textListener = false) : (fireDue t st).textListener = false := by
  unfold fireDue
  rw [(foldl_fireTimer_fields _ _).2]
  split <;> simp [h]

theorem stepText_inactive (env : AuthEnv) (chatId : Int) (now : Nat)
    (chat : Int) (content : Option String) (st : LoginSim)
    (h : st.textListener = false) :
    stepText env chatId now chat content st = st := by
  unfold stepText
  simp [h]

/-- Once no text listener is registered, the rest of the run can fire
timers but never issues another OTP request, and no listener ever comes
back. -/
theorem runEvents_inactive_otpRequests (env : AuthEnv) (chatId : Int)
    (evs : List (Nat × Int × Option String)) (st : LoginSim)
    (h : st.textListener = false) :
    (runEvents env chatId evs st).otpRequests = st.otpRequests ∧
    (runEvents env chatId evs st).textListener = false := by
  induction evs generalizing st with
  | nil => exact ⟨rfl, h⟩
  | cons e rest ih =>
      obtain ⟨t, chat, content⟩ := e
      have hfd : (fireDue t st).textListener = false :=
        fireDue_textListener_false t st h
      have hstep : stepText env chatId t chat content (fireDue t st) = fireDue t st :=
        stepText_inactive env chatId t chat content _ hfd
      rcases ih (fireDue t st) hfd with ⟨h1, h2⟩
      constructor
      · show (runEvents env chatId rest
            (stepText env chatId t chat content (fireDue t st))).otpRequests =
          st.otpRequests
        rw [hstep, h1, fireDue_otpRequests]
      · show (runEvents env chatId rest
            (stepText env chatId t chat content (fireDue t st))).textListener = false
        rw [hstep]
        exact h2

/-! Lemmas on the 422 fragments. -/

theorem plainFragment_ne_empty (p : String) (b : String) :
    p ++ ": " ++ b ≠ "" := by
  intro h
  have : (p ++ ": " ++ b).data = [] := by rw [h]
  simp [String.data_append] at this

theorem joinWith_ne_empty (sep : String) (x : String) (xs : List String)
    (hx : x ≠ "") : joinWith sep (x :: xs) ≠ "" := by
  cases xs with
  | nil => simpa [joinWith]
  | cons y ys =>
      intro h
      have h2 : x ++ sep ++ joinWith sep (y :: ys) = "" := h
      have h3 : (x ++ sep ++ joinWith sep (y :: ys)).data = ("" : String).data :=
        congrArg String.data h2
      rw [String.data_append, String.data_append] at h3
      simp only [List.append_assoc, List.append_eq_nil] at h3
      exact hx (by cases x with
        | mk xl => simpa using congrArg String.mk h3.1)

/-! ## Sample fixtures used by witnesses and counterexamples -/

def sampleDraft : SendDraft :=
  { recipient := "a@b.com", amountMicroUnits := 10500000, description := some "" }

def sampleWallet : Wallet :=
  { id := "w1", name := "Primary", address := "So1anaWalletAddress0000000000000000",
    network := "solana", isDefault := true, createdAt := "2024-01-01",
    updatedAt := "2024-01-01" }

def sampleResp : RespObj := { id := some "tx-1" }

def sampleBankDraft : BankDraft := { amountMicroUnits := 50000000 }

/-! ## Claim theorems -/

/-- Claim C6: for every amount string matching `AMOUNT_REGEX` whose
parsed value is strictly positive, the send flow's amount listener
stores the amount and advances to the description step (removing
itself); for "0" it re-prompts that the amount must exceed 0, and for
"-1", "abc" and "1.1234567" it re-prompts for a valid amount — in each
re-prompt case the listener stays registered and the draft is not
written. -/
theorem amount_validation_advances (s : String)
    (hm : amountMatches s = true) (hpos : 0 < amountMicro s) :
    sendAmountStep (some s) =
      { advanced := true, storedAmountMicro := some (amountMicro s),
        reply := descPromptMsg, listenerRemoved := true } ∧
    sendAmountStep (some "0") =
      { advanced := false, storedAmountMicro := none, reply := gtZeroMsg,
        listenerRemoved := false } ∧
    sendAmountStep (some "-1") =
      { advanced := false, storedAmountMicro := none, reply := invalidAmountMsg,
        listenerRemoved := false } ∧
    sendAmountStep (some "abc") =
      { advanced := false, storedAmountMicro := none, reply := invalidAmountMsg,
        listenerRemoved := false } ∧
    sendAmountStep (some "1.1234567") =
      { advanced := false, storedAmountMicro := none, reply := invalidAmountMsg,
        listenerRemoved := false } := by
  have ht := jsTrim_eq_self_of_amountMatches s hm
  have hne := amountMatches_ne_empty s hm
  refine ⟨?_, by decide, by decide, by decide, by decide⟩
  simp only [sendAmountStep]
  rw [ht]
  simp [hm, hne, Nat.pos_iff_ne_zero.mp hpos]

/-- Claim C6 witness: the amount "10.5" (value 10.5 USDC, that is
10500000 micro-units) advances the flow. -/
theorem amount_validation_advances_witness :
    sendAmountStep (some "10.5") =
      { advanced := true, storedAmountMicro := some (amountMicro "10.5"),
        reply := descPromptMsg, listenerRemoved := true } ∧
    sendAmountStep (some "0") =
      { advanced := false, storedAmountMicro := none, reply := gtZeroMsg,
        listenerRemoved := false } ∧
    sendAmountStep (some "-1") =
      { advanced := false, storedAmountMicro := none, reply := invalidAmountMsg,
        listenerRemoved := false } ∧
    sendAmountStep (some "abc") =
      { advanced := false, storedAmountMicro := none, reply := invalidAmountMsg,
        listenerRemoved := false } ∧
    sendAmountStep (some "1.1234567") =
      { advanced := false, storedAmountMicro := none, reply := invalidAmountMsg,
        listenerRemoved := false } :=
  amount_validation_advances "10.5" (by decide) (by decide)

/-- Claim C1: a `confirm_send` button press arriving when no draft is
stored for the chat (for example a second tap right after a successful
submission, which deleted the draft) reports "Transfer data not found"
and does not invoke `sendFunds`; in particular, after a successful
confirm the draft slot is empty, so an immediate second tap cannot
double-submit. -/
theorem confirm_send_after_discard (d : SendDraft) (tok : String) (htok : tok ≠ "")
    (w : Wallet) (resp : RespObj) (tok2 : Option String)
    (dw2 : Except String (Option Wallet)) (out2 : ApiOutcome RespObj) :
    confirmSend none tok2 dw2 out2 =
      { replies := [noPendingSendMsg], invoked := false, callRecipient := none,
        callAmountMicro := none, callDescription := none, draftAfter := none } ∧
    (confirmSend (some d) (some tok) (Except.ok (some w)) (ApiOutcome.ok resp)).draftAfter
      = none ∧
    (confirmSend ((confirmSend (some d) (some tok) (Except.ok (some w))
        (ApiOutcome.ok resp)).draftAfter) tok2 dw2 out2).invoked = false := by
  have hsucc : (confirmSend (some d) (some tok) (Except.ok (some w))
      (ApiOutcome.ok resp)).draftAfter = none := by
    simp [confirmSend, jsTruthyS, htok, sendFunds]
  exact ⟨rfl, hsucc, by rw [hsucc]; rfl⟩

/-- Claim C1 witness: a concrete successful submission followed by a
second tap. -/
theorem confirm_send_after_discard_witness :
    confirmSend none none (Except.error "boom") (ApiOutcome.fail none none) =
      { replies := [noPendingSendMsg], invoked := false, callRecipient := none,
        callAmountMicro := none, callDescription := none, draftAfter := none } ∧
    (confirmSend (some sampleDraft) (some "tok") (Except.ok (some sampleWallet))
        (ApiOutcome.ok sampleResp)).draftAfter = none ∧
    (confirmSend ((confirmSend (some sampleDraft) (some "tok")
        (Except.ok (some sampleWallet)) (ApiOutcome.ok sampleResp)).draftAfter)
        none (Except.error "boom") (ApiOutcome.fail none none)).invoked = false :=
  confirm_send_after_discard sampleDraft "tok" (by decide) sampleWallet sampleResp
    none (Except.error "boom") (ApiOutcome.fail none none)

/-- Claim C2 counterexample: after a failed `sendFunds` submission the
draft slot still holds the draft (the failure branch has no
`delete userStates[chatId]`), and the reported message is "Transfer
failed: Unknown error" — not the gateway's normalized message
("Insufficient balance"), which the service stored under `data.error`
while the reply reads `data?.message`. -/
theorem confirm_send_failure_cex :
    (confirmSend (some sampleDraft) (some "tok") (Except.ok (some sampleWallet))
        (ApiOutcome.fail (some "Insufficient balance") none)).draftAfter =
      some sampleDraft ∧
    (confirmSend (some sampleDraft) (some "tok") (Except.ok (some sampleWallet))
        (ApiOutcome.fail (some "Insufficient balance") none)).replies =
      [processingTransferMsg, transferFailedHead ++ "Unknown error"] := by
  exact ⟨rfl, rfl⟩

/-- Claim C2 (amended): when the submission fails after confirmation,
the engine reports "Transfer failed: " followed by
`result.data?.message || "Unknown error"` — which is always
"Unknown error", because the gateway places its normalized message
under `data.error` — and RETAINS the accumulated draft for that chat. -/
theorem confirm_send_failure_keeps_draft (d : SendDraft) (tok : String)
    (htok : tok ≠ "") (w : Wallet) (rm em : Option String) :
    confirmSend (some d) (some tok) (Except.ok (some w)) (ApiOutcome.fail rm em) =
      { replies := [processingTransferMsg, transferFailedHead ++ "Unknown error"],
        invoked := true, callRecipient := some d.recipient,
        callAmountMicro := some d.amountMicroUnits,
        callDescription := some (jsOrDefault d.description ""),
        draftAfter := some d } := by
  simp [confirmSend, jsTruthyS, htok, sendFunds, jsOrDefault]

/-- Claim C2 witness: a concrete failed submission. -/
theorem confirm_send_failure_keeps_draft_witness :
    confirmSend (some sampleDraft) (some "tok") (Except.ok (some sampleWallet))
        (ApiOutcome.fail (some "Insufficient balance") none) =
      { replies := [processingTransferMsg, transferFailedHead ++ "Unknown error"],
        invoked := true, callRecipient := some sampleDraft.recipient,
        callAmountMicro := some sampleDraft.amountMicroUnits,
        callDescription := some (jsOrDefault sampleDraft.description ""),
        draftAfter := some sampleDraft } :=
  confirm_send_failure_keeps_draft sampleDraft "tok" (by decide) sampleWallet
    (some "Insufficient balance") none

/-- Claim C10: every confirmed bank withdrawal invokes the bank
withdraw operation with the bank account identifier equal to the empty
string (the literal `""` at the call site), so the `/transfers/offramp`
request body always carries an empty `bankId`, whatever the user typed
during the flow. -/
theorem bank_withdraw_empty_bank_id (d : BankDraft) (tok : String) (htok : tok ≠ "")
    (out : ApiOutcome RespObj) :
    (confirmBankWithdraw (some d) (some tok) out).invoked = true ∧
    (confirmBankWithdraw (some d) (some tok) out).request =
      some { amountMicroUnits := d.amountMicroUnits, bankId := "" } := by
  cases out <;> simp [confirmBankWithdraw, jsTruthyS, htok, withdrawToBank]

/-- Claim C10 witness: a concrete confirmed bank withdrawal. -/
theorem bank_withdraw_empty_bank_id_witness :
    (confirmBankWithdraw (some sampleBankDraft) (some "tok")
        (ApiOutcome.ok sampleResp)).invoked = true ∧
    (confirmBankWithdraw (some sampleBankDraft) (some "tok")
        (ApiOutcome.ok sampleResp)).request =
      some { amountMicroUnits := sampleBankDraft.amountMicroUnits, bankId := "" } :=
  bank_withdraw_empty_bank_id sampleBankDraft "tok" (by decide) (ApiOutcome.ok sampleResp)

/-- Claim C5 counterexample: `getWallets` does NOT return a uniform
result value on a remote error — it propagates a thrown `Error`
(`Except.error`), here with the remote body's message. -/
theorem wallet_service_throws_on_error :
    getWallets (some { token := "tok" })
      (ApiOutcome.fail (some "Service unavailable") none) =
    Except.error "Service unavailable" := rfl

/-- Claim C5 (amended): the transfer-service operations (send funds,
withdraw to wallet, withdraw to bank, fetch history) return a uniform
result — success flag with payload or a normalized error message — on a
remote error; the wallet-service operations (list wallets, fetch
balances, set/get default wallet) instead THROW a normalized `Error`,
which their callers catch and display. -/
theorem gateway_error_result_shapes (rm em : Option String) (s : SessionRec) :
    sendFunds (ApiOutcome.fail rm em) =
      { success := false,
        data := some
          { id := none, message := none,
            error := some (jsOrDefault rm (jsOrDefault em "Failed to send funds")) } } ∧
    withdrawToWallet (ApiOutcome.fail rm em) =
      { success := false,
        data := some
          { id := none, message := none,
            error := some (jsOrDefault rm (jsOrDefault em "Failed to withdraw funds")) } } ∧
    withdrawToBank (ApiOutcome.fail rm em) =
      { success := false,
        data := some
          { id := none, message := none,
            error := some (jsOrDefault rm (jsOrDefault em "Failed to withdraw funds to bank")) } } ∧
    getTransactionHistory (ApiOutcome.fail rm em) =
      { success := false, dataPresent := false,
        error := some (jsOrDefault rm (jsOrDefault em "Failed to fetch transaction history")) } ∧
    getWallets (some s) (ApiOutcome.fail rm em) =
      Except.error (walletThrowMsg "Failed to fetch wallets" rm em) ∧
    getWalletBalances (some s) (ApiOutcome.fail rm em) =
      Except.error (walletThrowMsg "Failed to fetch wallet balances" rm em) ∧
    setDefaultWallet (some s) (ApiOutcome.fail rm em) =
      Except.error (walletThrowMsg "Failed to set default wallet" rm em) ∧
    getDefaultWallet (some s) (ApiOutcome.fail rm em) =
      Except.error (walletThrowMsg "Failed to fetch default wallet" rm em) :=
  ⟨rfl, rfl, rfl, rfl, rfl, rfl, rfl, rfl⟩

/-- Claim C4: a text received while the login flow awaits the email
that fails `EMAIL_REGEX` makes the flow reply "Invalid email format",
deregister its listener and terminate — `requestEmailOTP` is not
called, no new prompt is sent in this flow, and however the run
continues, this flow never issues an OTP request. -/
theorem login_invalid_email_never_requests_otp
    (env : AuthEnv) (chatId : Int) (now : Nat) (st : LoginSim)
    (content : Option String) (evs : List (Nat × Int × Option String))
    (hphase : st.phase = LoginPhase.awaitingEmail)
    (hlist : st.textListener = true)
    (hbad : emailMatches (jsTrim (content.getD "")) = false) :
    stepText env chatId now chatId content st =
      { st with phase := LoginPhase.failed, textListener := false,
                outbox := st.outbox ++ [invalidEmailMsg] } ∧
    (runEvents env chatId evs (stepText env chatId now chatId content st)).otpRequests
      = st.otpRequests := by
  have hstep : stepText env chatId now chatId content st =
      { st with phase := LoginPhase.failed, textListener := false,
                outbox := st.outbox ++ [invalidEmailMsg] } := by
    unfold stepText
    rw [hlist]
    simp [hphase, hbad]
  refine ⟨hstep, ?_⟩
  rw [hstep]
  exact (runEvents_inactive_otpRequests env chatId evs _ rfl).1

def c4Env : AuthEnv := { otpRequestError := none, authOk := true, firstName := "Ada" }

/-- Claim C4 witness: the input "notanemail" terminates a fresh login
flow without an OTP request. -/
theorem login_invalid_email_witness :
    stepText c4Env 7 1000 7 (some "notanemail") (loginStart 0) =
      { loginStart 0 with phase := LoginPhase.failed, textListener := false,
                          outbox := (loginStart 0).outbox ++ [invalidEmailMsg] } ∧
    (runEvents c4Env 7 [(400000, 7, some "x@y.com")]
        (stepText c4Env 7 1000 7 (some "notanemail") (loginStart 0))).otpRequests
      = (loginStart 0).otpRequests :=
  login_invalid_email_never_requests_otp c4Env 7 1000 (loginStart 0)
    (some "notanemail") [(400000, 7, some "x@y.com")] rfl rfl (by decide)

/-- Claim C7: a text accepted by the OTP validation step is submitted
to the authenticate operation with all whitespace removed: the posted
`otp` equals `stripWs` of the raw input, and in particular "12 34 56"
is submitted as "123456". -/
theorem otp_submission_strips_whitespace
    (env : AuthEnv) (chatId : Int) (now : Nat) (st : LoginSim)
    (content : Option String)
    (hphase : st.phase = LoginPhase.awaitingOtp)
    (hlist : st.textListener = true)
    (hok : otpMatches (jsTrim (content.getD "")) = true) :
    (stepText env chatId now chatId content st).authCalls =
      st.authCalls ++ [(st.email.getD "", stripWs (content.getD ""))] ∧
    authenticateOtpPayload "12 34 56" = "123456" := by
  refine ⟨?_, by decide⟩
  unfold stepText
  rw [hlist]
  cases henv : env.authOk <;> simp [hphase, hok, henv, stripWs_jsTrim]

def c7Env : AuthEnv := { otpRequestError := none, authOk := true, firstName := "Ada" }

def c7State : LoginSim :=
  { phase := LoginPhase.awaitingOtp, email := some "a@b.com", textListener := true,
    timers := [], outbox := [], otpRequests := ["a@b.com"], authCalls := [] }

/-- Claim C7 witness: the input "12 34 56" is submitted as "123456". -/
theorem otp_submission_strips_whitespace_witness :
    (stepText c7Env 7 2000 7 (some "12 34 56") c7State).authCalls =
      c7State.authCalls ++ [(c7State.email.getD "", stripWs "12 34 56")] ∧
    authenticateOtpPayload "12 34 56" = "123456" :=
  otp_submission_strips_whitespace c7Env 7 2000 c7State (some "12 34 56")
    rfl rfl (by decide)

def c3Env : AuthEnv := { otpRequestError := none, authOk := true, firstName := "Ada" }

def c3Mid : LoginSim :=
  runEvents c3Env 7 [(1000, 7, some "a@b.com"), (2000, 7, some "123456")] (loginStart 0)

set_option maxRecDepth 100000 in
/-- Claim C3: in a run where login completes successfully well before
five minutes (valid email at t=1s, correct OTP at t=2s), both
`setTimeout` timers are still pending afterwards — the source never
calls `clearTimeout` and the callbacks test nothing — so when the
5-minute marks pass, both timers fire anyway: they deregister the
`/.*/` text listener and send both timeout messages to the
already-logged-in user.  This refutes the claimed no-op behaviour. -/
theorem login_timeout_fires_despite_completed_login :
    c3Mid.phase = LoginPhase.loggedIn ∧
    c3Mid.timers = [(300000, TimerKind.emailTimeout), (301000, TimerKind.otpTimeout)] ∧
    (fireDue 301000 c3Mid).outbox = c3Mid.outbox ++ [emailTimeoutMsg, otpTimeoutMsg] ∧
    (fireDue 301000 c3Mid).textListener = false := by
  refine ⟨by decide, by decide, by decide, by decide⟩

/-- Claim C8: an authenticate response with only `accessToken` (no
`token`) and an `expireAt` timestamp succeeds, uses `accessToken` as
the session token, and derives `expiresIn` as the floor of
`(expireAt - now) / 1000`; with `expireAt` 300 seconds in the future
the derived `expiresIn` is 300. -/
theorem authenticate_accepts_accessToken_expireAt
    (nowMs e : Int) (a : String) (ha : a ≠ "") (he : e ≠ 0) :
    extractAuthToken nowMs (some { accessToken := some a, expireAt := some e }) =
      Except.ok { token := a, expiresIn := some (Int.fdiv (e - nowMs) 1000),
                  organizationId := "", refreshToken := none } ∧
    extractAuthToken 1700000000000
        (some { accessToken := some "tok", expireAt := some 1700000300000 }) =
      Except.ok { token := "tok", expiresIn := some 300, organizationId := "",
                  refreshToken := none } := by
  refine ⟨?_, by rfl⟩
  simp [extractAuthToken, jsTruthyS, jsTruthyI, jsOrS, jsOrDefault, ha, he]

/-- Claim C8 witness: a concrete response 300 seconds before expiry. -/
theorem authenticate_accessToken_witness :
    extractAuthToken 1700000000000
        (some { accessToken := some "tok", expireAt := some 1700000300000 }) =
      Except.ok { token := "tok",
                  expiresIn := some (Int.fdiv ((1700000300000 : Int) - 1700000000000) 1000),
                  organizationId := "", refreshToken := none } ∧
    extractAuthToken 1700000000000
        (some { accessToken := some "tok", expireAt := some 1700000300000 }) =
      Except.ok { token := "tok", expiresIn := some 300, organizationId := "",
                  refreshToken := none } :=
  authenticate_accepts_accessToken_expireAt 1700000000000 1700000300000 "tok"
    (by decide) (by decide)

/-- The `property: joined constraint values` fragment the spec expects
for one plain `{property, constraints}` validation object. -/
def plainFragment422 (o : ValErr) : String :=
  o.property.getD "" ++ ": " ++ joinComma ((o.constraints.getD []).map Prod.snd)

/-- A `message`-array entry with one nested child validation object. -/
def nestedItem (p c : String) (k : List (String × String)) : MsgItem :=
  MsgItem.obj { property := some p, constraints := none,
                children := some [{ property := some c, constraints := some k }] }

/-- Claim C9: a 422 whose `message` is an array of `{property,
constraints}` objects normalizes to the single string joining the
`property: constraint` fragments with "; ", and an entry carrying one
level of nested children renders as `parent.child: constraint`; the
result is always this flat string, never an unserialized object. -/
theorem err422_array_objects_normalized
    (o0 : ValErr) (rest : List ValErr)
    (hall : ∀ o ∈ o0 :: rest, jsTruthyS o.property = true ∧ o.constraints.isSome = true)
    (p c : String) (hp : p ≠ "") (hc : c ≠ "") (k : List (String × String)) :
    normalize422 (some { message := MsgField.arr ((o0 :: rest).map MsgItem.obj) }) =
      joinWith "; " ((o0 :: rest).map plainFragment422) ∧
    normalize422 (some { message := MsgField.arr [nestedItem p c k] }) =
      p ++ "." ++ c ++ ": " ++ joinComma (k.map Prod.snd) := by
  constructor
  · have hmap : ((o0 :: rest).map MsgItem.obj).map itemFragment =
        (o0 :: rest).map plainFragment422 := by
      rw [List.map_map]
      refine List.map_congr_left ?_
      intro o ho
      rcases hall o ho with ⟨h1, h2⟩
      simp [itemFragment, plainFragment422, Function.comp, h1, h2]
    have hfilter : ((o0 :: rest).map plainFragment422).filter (fun s => s ≠ "") =
        (o0 :: rest).map plainFragment422 := by
      refine List.filter_eq_self.mpr ?_
      intro b hb
      rcases List.mem_map.mp hb with ⟨o, ho, rfl⟩
      simpa [plainFragment422] using plainFragment_ne_empty (o.property.getD "")
        (joinComma ((o.constraints.getD []).map Prod.snd))
    have hne : joinWith "; " ((o0 :: rest).map plainFragment422) ≠ "" := by
      rw [List.map_cons]
      exact joinWith_ne_empty _ _ _ (plainFragment_ne_empty _ _)
    have hred : normalize422 (some { message := MsgField.arr ((o0 :: rest).map MsgItem.obj) }) =
        (if joinWith "; " ((((o0 :: rest).map MsgItem.obj).map itemFragment).filter
            (fun s => s ≠ "")) ≠ "" then
          joinWith "; " ((((o0 :: rest).map MsgItem.obj).map itemFragment).filter
            (fun s => s ≠ ""))
        else "Validation failed") := rfl
    rw [hred, hmap, hfilter, if_pos hne]
  · have hx := plainFragment_ne_empty (p ++ "." ++ c) (joinComma (k.map Prod.snd))
    have hfrag : itemFragment (nestedItem p c k) =
        p ++ "." ++ c ++ ": " ++ joinComma (k.map Prod.snd) := by
      simp [nestedItem, itemFragment, childFragment, jsTruthyS, hp, hc, joinWith, hx]
    have hred : normalize422 (some { message := MsgField.arr [nestedItem p c k] }) =
        (if joinWith "; " (([nestedItem p c k].map itemFragment).filter
            (fun s => s ≠ "")) ≠ "" then
          joinWith "; " (([nestedItem p c k].map itemFragment).filter
            (fun s => s ≠ ""))
        else "Validation failed") := rfl
    rw [hred]
    simp only [List.map_cons, List.map_nil, hfrag]
    rw [List.filter_cons_of_pos (by simpa using hx)]
    simp only [List.filter_nil, joinWith]
    rw [if_pos hx]

def vErrEmail : ValErr :=
  { property := some "email", constraints := some [("isEmail", "email must be an email")] }

def vErrOtp : ValErr :=
  { property := some "otp",
    constraints := some [("isNumberString", "otp must be a number string")] }

/-- Claim C9 witness: two plain validation objects and a nested one. -/
theorem err422_array_objects_witness :
    normalize422 (some { message := MsgField.arr ((vErrEmail :: [vErrOtp]).map MsgItem.obj) }) =
      joinWith "; " ((vErrEmail :: [vErrOtp]).map plainFragment422) ∧
    normalize422
        (some { message := MsgField.arr [nestedItem "user" "email"
                  [("isEmail", "must be an email")]] }) =
      "user" ++ "." ++ "email" ++ ": " ++
        joinComma ([("isEmail", "must be an email")].map Prod.snd) :=
  err422_array_objects_normalized vErrEmail [vErrOtp] (by decide) "user" "email"
    (by decide) (by decide) [("isEmail", "must be an email")]

end CopperxBot
